import Mathlib

/-!
Verification of the fair-random catch engine and throttle gate of the
fishing-game server (`auth.py`, `game_logic.py`, `models.py`).

Shallow embedding conventions:
* Wall-clock times, probabilities and weights are rationals (`ℚ`);
  Python `int(x)` on a nonnegative float is modelled by `Int.floor`
  followed by `Int.toNat` (for negative `x` the two disagree, but the
  only use is as a list-replication count, where Python's `[f] * n`
  with `n ≤ 0` and `List.replicate ((Int.floor x).toNat)` both give
  the empty list).
* `random.choice(lst)` is modelled by an oracle index `r : ℕ` reduced
  modulo the list length; `random.gauss(mu, sigma)` by
  `mu + sigma * z` with a standard-normal oracle `z : ℚ`.
* Python `round(x, 2)` is modelled by rounding to the nearest multiple
  of `1/100` (`round2`); binary floating-point representation artifacts
  and the exact tie-breaking rule are abstracted away, and no theorem
  below depends on a tie case.
* Database reads are passed in as explicit oracle arguments (the list
  the `fish_species` select would return, the list of the player's
  prior catch weights, the success of the `insert_catch` RPC).
-/

/-- A fish species row, from `models.py` (`FishSpecies`): the fields the
catch engine reads. -/
structure FishSpecies where
  id : String
  name : String
  min_weight : ℚ
  max_weight : ℚ
  base_probability : ℚ
  points : ℤ
deriving DecidableEq, Repr

/-- Result of a fishing cast, from `models.py` (`CastResult`). -/
structure CastResult where
  success : Bool
  fish : Option FishSpecies
  weight : Option ℚ
  points : Option ℤ
  is_personal_best : Bool
  message : String
deriving DecidableEq, Repr

/-- The mutable cache fields of `FishingGame.__init__`:
`fish_species_cache` starts as Python `None` (modelled `none`) and
`last_cache_update` starts at 0. -/
structure GameState where
  fish_species_cache : Option (List FishSpecies)
  last_cache_update : ℚ
deriving DecidableEq, Repr

/-- `self.cache_duration = 300` (cache for 5 minutes). -/
def cache_duration : ℚ := 300

/-- Python truthiness of `self.fish_species_cache`: `None` and the
empty list are falsy. -/
def cacheTruthy : Option (List FishSpecies) → Bool
  | none => false
  | some l => !l.isEmpty

/-- `FishingGame.get_all_fish_species` (game_logic.py:18-35).
`fetched` is the oracle for `response.data` of the database select
(`[]` models an empty/None data field). Returns the returned list
together with the updated cache state. -/
def get_all_fish_species (st : GameState) (now : ℚ) (fetched : List FishSpecies) :
    List FishSpecies × GameState :=
  if cacheTruthy st.fish_species_cache ∧ now - st.last_cache_update < cache_duration then
    (st.fish_species_cache.getD [], st)
  else if !fetched.isEmpty then
    (fetched, { fish_species_cache := some fetched, last_cache_update := now })
  else
    ([], st)

/-- The replication count `int(probability * 1000)` used by
`generate_random_fish` (game_logic.py:54); `.toNat` also covers the
Python semantics of replicating a list a negative number of times. -/
def repCount (p : ℚ) : ℕ := (Int.floor (p * 1000)).toNat

/-- The `weighted_choices` list built by `generate_random_fish`
(game_logic.py:49-55): each fish repeated `int(base_probability*1000)`
times. -/
def weightedChoices (l : List FishSpecies) : List FishSpecies :=
  l.flatMap fun f => List.replicate (repCount f.base_probability) f

/-- `FishingGame.generate_random_fish` (game_logic.py:37-62), applied
to an already-fetched species list: `none` when the list or the
weighted list is empty, otherwise a uniform `random.choice` over
`weighted_choices`, modelled by the oracle index `r` mod the length. -/
def generate_random_fish (l : List FishSpecies) (r : ℕ) : Option FishSpecies :=
  if l.isEmpty then none
  else
    let wc := weightedChoices l
    if wc.isEmpty then none
    else wc[r % wc.length]?

/-- Rounding to two decimal places, Python `round(weight, 2)`: the
nearest multiple of `1/100` (ties resolved upward; no theorem below
depends on a tie case). -/
def round2 (q : ℚ) : ℚ := (⌊q * 100 + 1/2⌋ : ℤ) / 100

/-- `FishingGame.generate_weight` (game_logic.py:64-84): draw
`random.gauss(mean, std_dev) = mean + std_dev * z`, clamp into
`[min_weight, max_weight]`, round to two decimals. -/
def generate_weight (f : FishSpecies) (z : ℚ) : ℚ :=
  let mean := (f.min_weight + f.max_weight) / 2
  let std_dev := (f.max_weight - f.min_weight) / 6
  let weight := mean + std_dev * z
  round2 (max f.min_weight (min f.max_weight weight))

/-- `FishingGame.check_personal_best` (game_logic.py:86-102).
`prior` is the oracle for the player's recorded catch weights for this
species; the select `order('weight', desc=True).limit(1)` returns the
maximum, so `response.data` is empty iff `prior` is empty and otherwise
its single row is `prior`'s maximum. -/
def check_personal_best (prior : List ℚ) (weight : ℚ) : Bool :=
  match prior.max? with
  | none => true
  | some best => weight > best

/-- Outcome of one rate-limiter admission check (`auth.py` returns the
429 body carrying the limit and the window on denial). -/
inductive RateOutcome where
  | admitted
  | rateLimited (limit : ℕ) (window : ℚ)
deriving DecidableEq, Repr

/-- The `rate_limit` decorator body (auth.py:63-94) acting on one
player's stored timestamp list: prune entries with `now - t >= W`,
deny when the pruned count reaches `max_requests` (leaving the pruned
history in the store), otherwise append `now` and admit. Returns the
outcome and the player's new stored history. -/
def rate_limit (max_requests : ℕ) (window_seconds : ℚ) (hist : List ℚ) (now : ℚ) :
    RateOutcome × List ℚ :=
  let pruned := hist.filter fun t => now - t < window_seconds
  if max_requests ≤ pruned.length then
    (RateOutcome.rateLimited max_requests window_seconds, pruned)
  else
    (RateOutcome.admitted, pruned ++ [now])

/-- `check_cooldown` (auth.py:96-108): given the player's entry in
`cooldown_storage` (`none` when absent), returns `(can_cast, remaining)`. -/
def check_cooldown (stLast : Option ℚ) (now : ℚ) (cooldown_seconds : ℚ) : Bool × ℚ :=
  match stLast with
  | some last_cast =>
      if now - last_cast < cooldown_seconds then
        (false, cooldown_seconds - (now - last_cast))
      else (true, 0)
  | none => (true, 0)

/-- The value a Flask view wrapped by `cooldown_required` can return:
either a `(response, status_code)` tuple or a bare (non-tuple) response
object, which still carries an HTTP status of its own. The decorator's
`isinstance(result, tuple)` check can only see the shape, not the
status of a bare response. -/
inductive HandlerResult where
  | tuple (status : ℕ)
  | plain (status : ℕ)
deriving DecidableEq, Repr

/-- Whether `cooldown_required` calls `set_cooldown` after running the
handler (auth.py:137-142): a tuple arms it iff its status is 200; any
non-tuple return arms it unconditionally. -/
def armsCooldown : HandlerResult → Bool
  | HandlerResult.tuple status => status == 200
  | HandlerResult.plain _ => true

/-- Outcome of one pass through the `cooldown_required` decorator:
either the 429 cooldown rejection (handler not run) or the handler's
own result. -/
inductive CastGateOutcome where
  | cooldownActive (remaining : ℚ)
  | executed (result : HandlerResult)
deriving DecidableEq, Repr

/-- The `cooldown_required` decorator body (auth.py:114-147) for an
authenticated player: check the cooldown; on denial report the
remaining seconds and leave the stored timestamp unchanged; otherwise
run the handler (its result is the oracle `result`) and arm the
cooldown according to `armsCooldown`. Returns the outcome and the
player's new `cooldown_storage` entry. -/
def cooldown_required (cooldown_seconds : ℚ) (stLast : Option ℚ) (now : ℚ)
    (result : HandlerResult) : CastGateOutcome × Option ℚ :=
  let c := check_cooldown stLast now cooldown_seconds
  if c.1 then
    (CastGateOutcome.executed result,
      if armsCooldown result then some now else stLast)
  else
    (CastGateOutcome.cooldownActive c.2, stLast)

/-- Result of `FishingGame.cast_line` together with whether the
`save_catch` persistence call was attempted (it is skipped entirely
when no fish was generated). -/
structure CastOutcome where
  result : CastResult
  save_attempted : Bool
deriving DecidableEq, Repr

/-- `FishingGame.cast_line` (game_logic.py:153-198), with the samplers
and store replaced by oracles: `l` is the species list the catalog
fetch yields, `r` the `random.choice` index, `z` the gaussian draw,
`prior` the player's recorded weights for the selected species, and
`saveOk` whether the `insert_catch` RPC returns a row. -/
def cast_line (l : List FishSpecies) (r : ℕ) (z : ℚ) (prior : List ℚ)
    (saveOk : Bool) : CastOutcome :=
  match generate_random_fish l r with
  | none =>
      { result := { success := false, fish := none, weight := none, points := none,
                    is_personal_best := false, message := "Failed to generate fish" }
        save_attempted := false }
  | some fish =>
      let weight := generate_weight fish z
      let is_pb := check_personal_best prior weight
      if saveOk then
        { result := { success := true, fish := some fish, weight := some weight,
                      points := some fish.points, is_personal_best := is_pb,
                      message := "Caught a " ++ fish.name ++ "!" }
          save_attempted := true }
      else
        { result := { success := false, fish := none, weight := none, points := none,
                      is_personal_best := false, message := "Failed to save catch" }
          save_attempted := true }

/-- The spec's end-to-end example catalog entry of §8: a common
species with relative weight 0.9. -/
def commonFish : FishSpecies :=
  { id := "c1", name := "Common", min_weight := 1, max_weight := 2,
    base_probability := 9/10, points := 10 }

/-- The spec's end-to-end example catalog entry of §8, made slightly
rarer: a mythic species whose positive relative weight 0.0005 is below
the 0.001 resolution of the selector's integer scaling. -/
def mythicFish : FishSpecies :=
  { id := "m1", name := "Mythic", min_weight := 50, max_weight := 100,
    base_probability := 1/2000, points := 1000 }

/-- A plain catalog entry whose relative weight 0.001 is exactly the
resolution of the selector's integer scaling, so its replication count
is 1. -/
def troutFish : FishSpecies :=
  { id := "t1", name := "Trout", min_weight := 1, max_weight := 2,
    base_probability := 1/1000, points := 10 }

/-- A species whose degenerate weight range sits off the two-decimal
grid: min_weight = max_weight = 1.003. -/
def offGridFish : FishSpecies :=
  { id := "x1", name := "OffGrid", min_weight := 1003/1000,
    max_weight := 1003/1000, base_probability := 1/10, points := 1 }

/-! Helper lemmas shared by the claim theorems below. -/

theorem repCount_eq_zero {p : ℚ} (h : p < 1/1000) : repCount p = 0 := by
  unfold repCount
  rw [Int.toNat_eq_zero]
  have h1 : p * 1000 < ((1 : ℤ) : ℚ) := by push_cast; linarith
  have h2 := Int.floor_lt.mpr h1
  omega

theorem weightedChoices_eq_nil {l : List FishSpecies}
    (hall : ∀ f ∈ l, f.base_probability < 1/1000) : weightedChoices l = [] := by
  induction l with
  | nil => rfl
  | cons a t ih =>
      unfold weightedChoices at ih ⊢
      rw [List.flatMap_cons, repCount_eq_zero (hall a (by simp)),
        List.replicate_zero, List.nil_append]
      exact ih fun f hf => hall f (by simp [hf])

theorem qmax_eq_some_iff (l : List ℚ) (b : ℚ) :
    l.max? = some b ↔ b ∈ l ∧ ∀ x ∈ l, x ≤ b := by
  haveI : Std.Antisymm fun x1 x2 => (x1 : ℚ) ≤ x2 := ⟨fun h h' => le_antisymm h h'⟩
  apply List.max?_eq_some_iff
  · exact fun a => le_refl a
  · exact fun a b => max_choice a b
  · exact fun a b c => max_le_iff

theorem round2_mono {x y : ℚ} (h : x ≤ y) : round2 x ≤ round2 y := by
  unfold round2
  have hf : ⌊x * 100 + 1/2⌋ ≤ ⌊y * 100 + 1/2⌋ := Int.floor_mono (by linarith)
  have hc : ((⌊x * 100 + 1/2⌋ : ℤ) : ℚ) ≤ ((⌊y * 100 + 1/2⌋ : ℤ) : ℚ) := by
    exact_mod_cast hf
  linarith

theorem round2_fixed (a : ℤ) : round2 ((a : ℚ) / 100) = (a : ℚ) / 100 := by
  unfold round2
  have h1 : (a:ℚ)/100 * 100 + 1/2 = a + 1/2 := by field_simp
  rw [h1]
  have hf : ⌊(a:ℚ) + 1/2⌋ = a := by
    rw [Int.floor_eq_iff]
    constructor
    · linarith
    · linarith
  rw [hf]

/-- C5: for every player, species and sampled weight, the
personal-best check returns true when the player has no prior catch of
that species, and otherwise returns true exactly when the new weight
is strictly greater than the prior best weight for that species (a tie
is not a new personal best). -/
theorem check_personal_best_spec (prior : List ℚ) (w : ℚ) :
    (prior = [] → check_personal_best prior w = true) ∧
    ∀ b, b ∈ prior → (∀ x ∈ prior, x ≤ b) →
      (check_personal_best prior w = true ↔ b < w) := by
  constructor
  · intro h; subst h; rfl
  · intro b hb hmax
    have h : prior.max? = some b := (qmax_eq_some_iff prior b).mpr ⟨hb, hmax⟩
    simp [check_personal_best, h]

/-- Witness for C5: an empty history is a personal best, and a tie
with the prior best 5 is a new best only if 5 < 5 (it is not). -/
theorem check_personal_best_spec_witness :
    (check_personal_best [] 5 = true) ∧
    (check_personal_best [(2:ℚ), 5, 3] 5 = true ↔ (5:ℚ) < 5) :=
  ⟨(check_personal_best_spec [] 5).1 rfl,
   (check_personal_best_spec [(2:ℚ), 5, 3] 5).2 5 (by norm_num)
     (by intro x hx; fin_cases hx <;> norm_num)⟩

/-- C7: a gated cast fails CooldownActive iff a last-success timestamp
exists for the player and now - last_success < C; the reported
remaining time is exactly C - (now - last_success); a player with no
recorded timestamp is always admitted past the cooldown check. -/
theorem cooldown_gate_spec (C : ℚ) (stLast : Option ℚ) (now : ℚ)
    (result : HandlerResult) :
    (∀ rem, (cooldown_required C stLast now result).1 =
        CastGateOutcome.cooldownActive rem ↔
      ∃ last, stLast = some last ∧ now - last < C ∧ rem = C - (now - last)) ∧
    (stLast = none →
      (cooldown_required C stLast now result).1 =
        CastGateOutcome.executed result) := by
  constructor
  · intro rem
    cases stLast with
    | none => simp [cooldown_required, check_cooldown]
    | some last =>
        by_cases h : now - last < C
        · simp [cooldown_required, check_cooldown, h]
          exact eq_comm
        · simp [cooldown_required, check_cooldown, h]
  · intro h; subst h; rfl

/-- Witness for C7: cooldown 5, last success at t=100, new attempt at
t=100 is rejected with exactly 5 seconds remaining. -/
theorem cooldown_gate_spec_witness :
    (cooldown_required 5 (some 100) 100 (HandlerResult.tuple 200)).1 =
      CastGateOutcome.cooldownActive 5 :=
  ((cooldown_gate_spec 5 (some 100) 100 (HandlerResult.tuple 200)).1 5).mpr
    ⟨100, rfl, by norm_num, by norm_num⟩

/-- C2 (code bug): the decorator arms the cooldown for any non-tuple
handler return regardless of its status. With no prior cooldown at
t=10, a bare response carrying failing status 500 sets the player's
cooldown to 10, while the same failing status returned in tuple form
leaves it unset. -/
theorem cooldown_armed_despite_failed_result :
    (cooldown_required 5 none 10 (HandlerResult.plain 500)).2 = some 10 ∧
    (cooldown_required 5 none 10 (HandlerResult.tuple 500)).2 = none ∧
    armsCooldown (HandlerResult.plain 500) = true ∧
    (500 : ℕ) ≠ 200 :=
  ⟨rfl, rfl, rfl, by decide⟩

/-- C6: one admission check of the sliding-window limiter with limit N
and window W: timestamps older than now - W are dropped from the
stored history; if the count after pruning is at least N the check
fails RateLimited reporting the limit and window and the history is
not extended; otherwise now is recorded and the request is admitted. -/
theorem rate_limit_spec (N : ℕ) (W : ℚ) (hist : List ℚ) (now : ℚ) (hW : 0 ≤ W) :
    (∀ t ∈ hist, t < now - W → t ∉ (rate_limit N W hist now).2) ∧
    (N ≤ (hist.filter fun t => now - t < W).length →
      (rate_limit N W hist now).1 = RateOutcome.rateLimited N W ∧
      (rate_limit N W hist now).2 = hist.filter fun t => now - t < W) ∧
    ((hist.filter fun t => now - t < W).length < N →
      (rate_limit N W hist now).1 = RateOutcome.admitted ∧
      (rate_limit N W hist now).2 = (hist.filter fun t => now - t < W) ++ [now]) := by
  refine ⟨?_, ?_, ?_⟩
  · intro t ht hlt
    have hnotf : t ∉ hist.filter fun t => now - t < W := by
      simp only [List.mem_filter, decide_eq_true_eq, not_and]
      intro _
      linarith
    have hne : t ≠ now := by intro h; rw [h] at hlt; linarith
    unfold rate_limit
    by_cases h : N ≤ (hist.filter fun t => now - t < W).length
    · simpa [h] using hnotf
    · simp only [h, if_false, List.mem_append, List.mem_singleton]
      push_neg
      exact ⟨hnotf, hne⟩
  · intro h
    unfold rate_limit
    simp [h]
  · intro h
    unfold rate_limit
    simp [Nat.not_le.mpr h]

/-- Witness for C6, the spec's scenario at limit 3, window 60:
calls recorded at 0, 10 and 20; a fourth call at t=30 is rejected with
the limit and window reported and the history left at three entries;
a call at t=61 (past 60s from the first timestamp) prunes 0 and is
admitted. -/
theorem rate_limit_spec_witness :
    ((rate_limit 3 60 [0, 10, 20] 30).1 = RateOutcome.rateLimited 3 60 ∧
     (rate_limit 3 60 [0, 10, 20] 30).2 = [0, 10, 20]) ∧
    ((rate_limit 3 60 [0, 10, 20] 61).1 = RateOutcome.admitted ∧
     (rate_limit 3 60 [0, 10, 20] 61).2 = [10, 20, 61]) := by
  have e1 : (([(0:ℚ), 10, 20]).filter fun t => 30 - t < 60) = [0, 10, 20] := by
    norm_num [List.filter]
  have e2 : (([(0:ℚ), 10, 20]).filter fun t => 61 - t < 60) = [10, 20] := by
    norm_num [List.filter]
  have h1 := (rate_limit_spec 3 60 [0, 10, 20] 30 (by norm_num)).2.1
  have h2 := (rate_limit_spec 3 60 [0, 10, 20] 61 (by norm_num)).2.2
  rw [e1] at h1
  rw [e2] at h2
  refine ⟨h1 (by norm_num), ?_⟩
  have h3 := h2 (by norm_num)
  simpa using h3

/-- C10: for every non-empty catalog in which every species has
base_probability strictly below 0.001, generate_random_fish returns
none (the empty-catalog outcome): every replication count
int(base_probability * 1000) truncates to zero, so the weighted
choice list is empty. -/
theorem tiny_probabilities_select_nothing (l : List FishSpecies) (r : ℕ)
    (hne : l ≠ []) (hall : ∀ f ∈ l, f.base_probability < 1/1000) :
    generate_random_fish l r = none := by
  have hwc := weightedChoices_eq_nil hall
  unfold generate_random_fish
  rw [hwc]
  simp

/-- Witness for C10: a one-species catalog with probability 0.0005
selects nothing for the draw index 7. -/
theorem tiny_probabilities_select_nothing_witness :
    generate_random_fish
      [{ id := "m2", name := "Ghost", min_weight := 1, max_weight := 2,
         base_probability := 1/2000, points := 7 }] 7 = none :=
  tiny_probabilities_select_nothing _ 7 (by simp) (by
    intro f hf
    rw [List.mem_singleton] at hf
    subst hf
    norm_num)

/-- C1 (code bug): the selector is not proportional for species whose
base_probability is below 0.001: in the catalog [commonFish,
mythicFish], mythicFish has positive relative weight 0.0005 yet is
never selected for any random draw, because its replication count
int(0.0005 * 1000) truncates to zero. -/
theorem small_probability_never_selected (r : ℕ) :
    0 < mythicFish.base_probability ∧
    generate_random_fish [commonFish, mythicFish] r ≠ some mythicFish := by
  constructor
  · norm_num [mythicFish]
  · have h1 : repCount commonFish.base_probability = 900 := by
      norm_num [repCount, commonFish]
      decide
    have h2 : repCount mythicFish.base_probability = 0 := by
      norm_num [repCount, mythicFish]
    have hwc : weightedChoices [commonFish, mythicFish] =
        List.replicate 900 commonFish := by
      unfold weightedChoices
      rw [List.flatMap_cons, List.flatMap_cons, List.flatMap_nil, h1, h2]
      rw [List.replicate_zero]
      simp only [List.append_nil, List.nil_append]
    intro hcontra
    unfold generate_random_fish at hcontra
    rw [hwc] at hcontra
    simp only [List.isEmpty_cons, List.length_replicate,
      List.getElem?_replicate, if_true, Bool.false_eq_true, if_false] at hcontra
    have hmod : r % 900 < 900 := Nat.mod_lt r (by norm_num)
    rw [if_pos hmod] at hcontra
    have : commonFish = mythicFish := Option.some.inj hcontra
    have hne : commonFish ≠ mythicFish := by
      intro h
      have := congrArg FishSpecies.name h
      simp [commonFish, mythicFish] at this
    exact hne this

/-- C3 counterexample: with a stale nonempty snapshot loaded (one
species, last refresh at t=0, call at t=1000 with ttl 300) and an
empty fetch, the catalog getter returns the empty list, not the
previously loaded snapshot it still holds. -/
theorem stale_snapshot_not_returned :
    (get_all_fish_species
        { fish_species_cache := some [troutFish], last_cache_update := 0 }
        1000 []).1 = [] ∧
    (get_all_fish_species
        { fish_species_cache := some [troutFish], last_cache_update := 0 }
        1000 []).1 ≠ [troutFish] := by
  have h : (get_all_fish_species
      { fish_species_cache := some [troutFish], last_cache_update := 0 }
      1000 []).1 = [] := by
    norm_num [get_all_fish_species, cacheTruthy, cache_duration]
  refine ⟨h, ?_⟩
  rw [h]
  simp

/-- C3 (amended): a fresh nonempty snapshot is returned without
fetching; otherwise a fetch is performed, a nonempty fetch replaces
the snapshot and is returned, and an empty fetch returns the empty
list while leaving the stored snapshot and its timestamp unchanged —
the previously loaded snapshot is retained in the cache field but is
not what the call returns. -/
theorem get_catalog_spec (st : GameState) (now : ℚ) (fetched : List FishSpecies) :
    (cacheTruthy st.fish_species_cache = true →
     now - st.last_cache_update < cache_duration →
      get_all_fish_species st now fetched = (st.fish_species_cache.getD [], st)) ∧
    (¬(cacheTruthy st.fish_species_cache = true ∧
        now - st.last_cache_update < cache_duration) → fetched ≠ [] →
      get_all_fish_species st now fetched =
        (fetched, { fish_species_cache := some fetched, last_cache_update := now })) ∧
    (¬(cacheTruthy st.fish_species_cache = true ∧
        now - st.last_cache_update < cache_duration) → fetched = [] →
      get_all_fish_species st now fetched = ([], st)) := by
  refine ⟨?_, ?_, ?_⟩
  · intro h1 h2
    unfold get_all_fish_species
    rw [if_pos ⟨h1, h2⟩]
  · intro h hf
    unfold get_all_fish_species
    rw [if_neg h, if_pos]
    simpa using hf
  · intro h hf
    subst hf
    unfold get_all_fish_species
    rw [if_neg h]
    simp

/-- Witness for C3 (amended) at the stale-snapshot, empty-fetch
input: the call returns the empty list and leaves the state intact. -/
theorem get_catalog_spec_witness :
    get_all_fish_species
        { fish_species_cache := some [troutFish], last_cache_update := 0 }
        1000 [] =
      ([], { fish_species_cache := some [troutFish], last_cache_update := 0 }) :=
  (get_catalog_spec
      { fish_species_cache := some [troutFish], last_cache_update := 0 } 1000 []).2.2
    (by norm_num [cacheTruthy, cache_duration]) rfl

/-- C4 counterexample: for offGridFish, whose shared min and max
weight 1.003 is not a two-decimal value, the sampler returns 1.0,
which differs from the shared value and lies strictly below
min_weight. -/
theorem generate_weight_off_grid :
    generate_weight offGridFish 0 = 1 ∧
    generate_weight offGridFish 0 < offGridFish.min_weight ∧
    offGridFish.min_weight = offGridFish.max_weight := by
  have h : generate_weight offGridFish 0 = 1 := by
    norm_num [generate_weight, round2, offGridFish]
  refine ⟨h, ?_, rfl⟩
  rw [h]
  norm_num [offGridFish]

/-- C4 (amended): for every species with min_weight ≤ max_weight whose
bounds are exact two-decimal values, every sampled weight lies in
[min_weight, max_weight]; and when min_weight = max_weight every
sample equals that shared value exactly (the zero standard deviation
causes no division by zero). -/
theorem generate_weight_spec (f : FishSpecies) (z : ℚ) (a b : ℤ)
    (hle : f.min_weight ≤ f.max_weight)
    (ha : f.min_weight = (a : ℚ) / 100) (hb : f.max_weight = (b : ℚ) / 100) :
    f.min_weight ≤ generate_weight f z ∧
    generate_weight f z ≤ f.max_weight ∧
    (f.min_weight = f.max_weight → generate_weight f z = f.min_weight) := by
  unfold generate_weight
  have hcl : f.min_weight ≤
      max f.min_weight (min f.max_weight
        ((f.min_weight + f.max_weight) / 2 + (f.max_weight - f.min_weight) / 6 * z)) :=
    le_max_left _ _
  have hcu : max f.min_weight (min f.max_weight
      ((f.min_weight + f.max_weight) / 2 + (f.max_weight - f.min_weight) / 6 * z)) ≤
      f.max_weight :=
    max_le hle (min_le_left _ _)
  have e1 : round2 f.min_weight = f.min_weight := by rw [ha]; exact round2_fixed a
  have e2 : round2 f.max_weight = f.max_weight := by rw [hb]; exact round2_fixed b
  refine ⟨?_, ?_, ?_⟩
  · calc f.min_weight = round2 f.min_weight := e1.symm
      _ ≤ _ := round2_mono hcl
  · calc round2 (max f.min_weight (min f.max_weight
          ((f.min_weight + f.max_weight) / 2 + (f.max_weight - f.min_weight) / 6 * z))) ≤
        round2 f.max_weight := round2_mono hcu
      _ = f.max_weight := e2
  · intro heq
    show round2 (max f.min_weight (min f.max_weight
      ((f.min_weight + f.max_weight) / 2 + (f.max_weight - f.min_weight) / 6 * z))) =
      f.min_weight
    have hclamp : max f.min_weight (min f.max_weight
        ((f.min_weight + f.max_weight) / 2 + (f.max_weight - f.min_weight) / 6 * z)) =
        f.min_weight :=
      le_antisymm (heq ▸ hcu) hcl
    rw [hclamp, e1]

/-- Witness for C4 (amended): troutFish has the two-decimal bounds 1
and 2; the sample for the draw z=10 (clamped from above) stays inside
the range. -/
theorem generate_weight_spec_witness :
    troutFish.min_weight ≤ generate_weight troutFish 10 ∧
    generate_weight troutFish 10 ≤ troutFish.max_weight := by
  have h := generate_weight_spec troutFish 10 100 200
    (by norm_num [troutFish]) (by norm_num [troutFish]) (by norm_num [troutFish])
  exact ⟨h.1, h.2.1⟩

/-- C8 counterexample: on an empty catalog the cast fails with the
message "Failed to generate fish", not "no species available" as the
claim states, and without attempting persistence. -/
theorem empty_catalog_failure_message :
    (cast_line [] 0 0 [] true).result.success = false ∧
    (cast_line [] 0 0 [] true).result.message = "Failed to generate fish" ∧
    (cast_line [] 0 0 [] true).result.message ≠ "no species available" ∧
    (cast_line [] 0 0 [] true).save_attempted = false := by
  refine ⟨rfl, rfl, ?_, rfl⟩
  decide

/-- C8 (amended): when the catalog has zero eligible species (its
weighted-choices list is empty, which covers the empty catalog), the
selector returns none — the CatalogEmpty-equivalent outcome — and the
catch evaluator turns that into a failed CastResult whose message is
"Failed to generate fish", with no catch persisted. -/
theorem cast_line_no_species (l : List FishSpecies) (r : ℕ) (z : ℚ)
    (prior : List ℚ) (saveOk : Bool) (h : weightedChoices l = []) :
    generate_random_fish l r = none ∧
    cast_line l r z prior saveOk =
      { result := { success := false, fish := none, weight := none,
                    points := none, is_personal_best := false,
                    message := "Failed to generate fish" },
        save_attempted := false } := by
  have hg : generate_random_fish l r = none := by
    unfold generate_random_fish
    rw [h]
    simp
  refine ⟨hg, ?_⟩
  unfold cast_line
  rw [hg]

/-- Witness for C8 (amended) on the empty catalog. -/
theorem cast_line_no_species_witness :
    cast_line [] 3 0 [] true =
      { result := { success := false, fish := none, weight := none,
                    points := none, is_personal_best := false,
                    message := "Failed to generate fish" },
        save_attempted := false } :=
  (cast_line_no_species [] 3 0 [] true rfl).2

/-- C9: every CastResult of cast_line with success = false carries no
fish, weight or points and a false personal-best flag; every one with
success = true carries the selected species, its sampled weight, that
species' point value, and the computed personal-best flag. -/
theorem cast_result_invariant (l : List FishSpecies) (r : ℕ) (z : ℚ)
    (prior : List ℚ) (saveOk : Bool) :
    ((cast_line l r z prior saveOk).result.success = false →
      (cast_line l r z prior saveOk).result.fish = none ∧
      (cast_line l r z prior saveOk).result.weight = none ∧
      (cast_line l r z prior saveOk).result.points = none ∧
      (cast_line l r z prior saveOk).result.is_personal_best = false) ∧
    ((cast_line l r z prior saveOk).result.success = true →
      ∃ f, generate_random_fish l r = some f ∧
        (cast_line l r z prior saveOk).result.fish = some f ∧
        (cast_line l r z prior saveOk).result.weight = some (generate_weight f z) ∧
        (cast_line l r z prior saveOk).result.points = some f.points ∧
        (cast_line l r z prior saveOk).result.is_personal_best =
          check_personal_best prior (generate_weight f z)) := by
  cases hg : generate_random_fish l r with
  | none =>
      unfold cast_line
      rw [hg]
      simp
  | some f =>
      unfold cast_line
      rw [hg]
      cases saveOk with
      | false => simp
      | true =>
          simp only [if_true]
          constructor
          · intro hfalse
            simp at hfalse
          · intro _
            exact ⟨f, rfl, rfl, rfl, rfl, rfl⟩

/-- Witness for C9: a successful cast on the one-species catalog
[troutFish] carries the species, its weight, points and flag; a cast
whose save fails carries none of them. -/
theorem cast_result_invariant_witness :
    (∃ f, generate_random_fish [troutFish] 0 = some f ∧
      (cast_line [troutFish] 0 0 [] true).result.fish = some f ∧
      (cast_line [troutFish] 0 0 [] true).result.weight =
        some (generate_weight f 0) ∧
      (cast_line [troutFish] 0 0 [] true).result.points = some f.points ∧
      (cast_line [troutFish] 0 0 [] true).result.is_personal_best =
        check_personal_best [] (generate_weight f 0)) ∧
    (cast_line [troutFish] 0 0 [] false).result.fish = none := by
  have hrep : repCount troutFish.base_probability = 1 := by
    norm_num [repCount, troutFish]
  have hwc : weightedChoices [troutFish] = [troutFish] := by
    unfold weightedChoices
    rw [List.flatMap_cons, List.flatMap_nil, hrep]
    simp
  have hg : generate_random_fish [troutFish] 0 = some troutFish := by
    unfold generate_random_fish
    rw [hwc]
    simp
  have hsucc : (cast_line [troutFish] 0 0 [] true).result.success = true := by
    unfold cast_line
    rw [hg]
    simp
  have hfail : (cast_line [troutFish] 0 0 [] false).result.success = false := by
    unfold cast_line
    rw [hg]
    simp
  exact ⟨(cast_result_invariant [troutFish] 0 0 [] true).2 hsucc,
    ((cast_result_invariant [troutFish] 0 0 [] false).1 hfail).1⟩
